import Mathlib

/-!
Verification of ZMK `app/src/behavior.c`: behavior-binding resolution and
parameter validation.  The C code is shallowly embedded: C strings are
modelled with a memory map `mem : Nat → String` sending a pointer to the
byte content it addresses, devices carry a name pointer and a readiness
flag, machine integers are `Nat` (all relevant values are unsigned), and
`int` return codes are `Int` with the usual `0 = success`, `-errno`
convention.
-/

namespace ZMKBehavior

/-- Error number `EINVAL` (invalid argument), as used by `-EINVAL` returns. -/
def EINVAL : Int := 22

/-- Error number `ENODEV` (no such device), as used by `-ENODEV` returns. -/
def ENODEV : Int := 19

/-- Error number `ENOTSUP` (operation not supported). -/
def ENOTSUP : Int := 134

/-- Modelled from the spec: HID usage page number for Keyboard/Keypad
(`HID_USAGE_KEY`, from the repository header `dt-bindings/zmk/hid_usage_pages.h`,
which is not part of the provided sources). -/
def HID_USAGE_KEY : Nat := 0x07

/-- Modelled from the spec: HID usage page number for Consumer
(`HID_USAGE_CONSUMER`, same header). -/
def HID_USAGE_CONSUMER : Nat := 0x0C

/-- Build-time configuration constants consumed by the validators:
`ZMK_HID_KEYBOARD_NKRO_MAX_USAGE`, `CONFIG_ZMK_HID_CONSUMER_REPORT_USAGES_BASIC`
and `ZMK_KEYMAP_LEN`. -/
structure Config where
  nkro_max_usage : Nat
  consumer_basic : Bool
  keymap_len : Nat

/-- Modelled from the spec: `ZMK_HID_USAGE_PAGE` extracts the usage page as the
high 16 bits of a packed 32-bit usage value (macro from `zmk/hid.h`, not in the
provided sources; the spec fixes page = high bits). -/
def ZMK_HID_USAGE_PAGE (val : Nat) : Nat := val / 2 ^ 16 % 2 ^ 16

/-- Modelled from the spec: `ZMK_HID_USAGE_ID` extracts the usage id as the low
16 bits of a packed 32-bit usage value. -/
def ZMK_HID_USAGE_ID (val : Nat) : Nat := val % 2 ^ 16

/-- An example build configuration used by witness theorems: keyboard usages up
to 65, basic consumer usages only, 4 keymap layers. -/
def exampleConfig : Config := ⟨65, true, 4⟩

/-- Embedding of `validate_hid_usage` (behavior.c lines 45-65): checks a
16-bit usage id against the limits of its 16-bit usage page. -/
def validate_hid_usage (cfg : Config) (usage_page usage_id : Nat) : Int :=
  if usage_page = HID_USAGE_KEY then
    if usage_id = 0 ∨ usage_id > cfg.nkro_max_usage then -EINVAL else 0
  else if usage_page = HID_USAGE_CONSUMER then
    if usage_id > (if cfg.consumer_basic then 0xFF else 0xFFF) then -EINVAL else 0
  else
    -EINVAL

/-- Modelled from the spec: the `behavior_parameter_standard_domain` enum from
`drivers/behavior.h` (not in the provided sources); a closed enum starting at
zero, here its `NULL` member. -/
def BEHAVIOR_PARAMETER_STANDARD_DOMAIN_NULL : Nat := 0

/-- Modelled from the spec: the `HID_USAGE` member of the standard-domain enum. -/
def BEHAVIOR_PARAMETER_STANDARD_DOMAIN_HID_USAGE : Nat := 1

/-- Modelled from the spec: the `LAYER_INDEX` member of the standard-domain enum. -/
def BEHAVIOR_PARAMETER_STANDARD_DOMAIN_LAYER_INDEX : Nat := 2

/-- Modelled from the spec: the `HSV` member of the standard-domain enum. -/
def BEHAVIOR_PARAMETER_STANDARD_DOMAIN_HSV : Nat := 3

/-- Embedding of `validate_standard_param` (behavior.c lines 67-88).  The C
`switch` has no `default` case, so a domain tag outside the enum falls through
to `return 0`; the tag is therefore kept as a `Nat`. -/
def validate_standard_param (cfg : Config) (standard_domain : Nat) (val : Nat) : Int :=
  if standard_domain = BEHAVIOR_PARAMETER_STANDARD_DOMAIN_NULL then
    if val ≠ 0 then -EINVAL else 0
  else if standard_domain = BEHAVIOR_PARAMETER_STANDARD_DOMAIN_HID_USAGE then
    validate_hid_usage cfg (ZMK_HID_USAGE_PAGE val) (ZMK_HID_USAGE_ID val)
  else if standard_domain = BEHAVIOR_PARAMETER_STANDARD_DOMAIN_LAYER_INDEX then
    if val ≥ cfg.keymap_len then -EINVAL else 0
  else if standard_domain = BEHAVIOR_PARAMETER_STANDARD_DOMAIN_HSV then
    0
  else
    0

/-- A Zephyr `struct device` as seen by this code: a pointer `name` to its
name string and the result of `z_device_is_ready`. -/
structure device where
  name : Nat
  ready : Bool
deriving DecidableEq, Repr

/-- First pass of `z_impl_behavior_get_binding` (behavior.c lines 29-33):
first ready entry whose name pointer is identical to the queried pointer
(`item->device->name == name`, a C pointer comparison). -/
def find_ready_identity (table : List device) (p : Nat) : Option device :=
  table.find? (fun d => d.ready && d.name = p)

/-- Second pass of `z_impl_behavior_get_binding` (behavior.c lines 35-39):
first ready entry whose name bytes compare equal under `strcmp`. -/
def find_ready_strcmp (mem : Nat → String) (table : List device) (p : Nat) : Option device :=
  table.find? (fun d => d.ready && mem d.name = mem p)

/-- Embedding of `z_impl_behavior_get_binding` (behavior.c lines 24-42):
`none` for a NULL or empty name, then the identity pass, then the `strcmp`
fallback pass. -/
def z_impl_behavior_get_binding (mem : Nat → String) (table : List device) :
    Option Nat → Option device
  | none => none
  | some p =>
    if mem p = "" then none
    else
      match find_ready_identity table p with
      | some d => some d
      | none => find_ready_strcmp mem table p

/-- Modelled from the spec: the single-pass variant of the lookup that the
spec says is behaviorally equal — one byte-wise `strcmp` pass over the ready
entries, with the same NULL/empty prechecks. -/
def behavior_get_binding_single (mem : Nat → String) (table : List device) :
    Option Nat → Option device
  | none => none
  | some p => if mem p = "" then none else find_ready_strcmp mem table p

/-- Modelled from the spec: the `STANDARD` member of the
`behavior_parameter_value_metadata` type enum (`drivers/behavior.h`). -/
def BEHAVIOR_PARAMETER_VALUE_METADATA_TYPE_STANDARD : Nat := 0

/-- Modelled from the spec: the `VALUE` member of the value-metadata type enum. -/
def BEHAVIOR_PARAMETER_VALUE_METADATA_TYPE_VALUE : Nat := 1

/-- Modelled from the spec: the `RANGE` member of the value-metadata type enum. -/
def BEHAVIOR_PARAMETER_VALUE_METADATA_TYPE_RANGE : Nat := 2

/-- A `struct behavior_parameter_value_metadata` descriptor: a `position` tag
(0 constrains param1, anything else param2), a `type` discriminant kept as a
`Nat` because the C `switch` over it has no `default`, and the union payloads
(`standard` domain tag, exact `value`, inclusive `range`). -/
structure value_metadata where
  position : Nat
  type : Nat
  standard : Nat
  value : Nat
  range_min : Nat
  range_max : Nat
deriving DecidableEq, Repr

/-- The `switch (value_meta->type)` body of `validate_custom_params`
(behavior.c lines 109-125): whether one descriptor accepts the parameter it is
aimed at; an unknown `type` matches nothing. -/
def value_metadata_matches (cfg : Config) (v : value_metadata) (param : Nat) : Bool :=
  if v.type = BEHAVIOR_PARAMETER_VALUE_METADATA_TYPE_STANDARD then
    validate_standard_param cfg v.standard param = 0
  else if v.type = BEHAVIOR_PARAMETER_VALUE_METADATA_TYPE_VALUE then
    param = v.value
  else if v.type = BEHAVIOR_PARAMETER_VALUE_METADATA_TYPE_RANGE then
    v.range_min ≤ param ∧ param ≤ v.range_max
  else
    false

/-- The four loop-local booleans of `validate_custom_params`:
`had_param1_metadata`, `had_param2_metadata`, `param1_matched`,
`param2_matched`. -/
structure scan_state where
  had1 : Bool
  had2 : Bool
  m1 : Bool
  m2 : Bool
deriving DecidableEq, Repr

/-- The inner descriptor loop of `validate_custom_params` (behavior.c lines
102-126): iterates the set's descriptors while `!param1_matched ||
!param2_matched`, recording per-position metadata presence and matches. -/
def scan_values (cfg : Config) (p1 p2 : Nat) : List value_metadata → scan_state → scan_state
  | [], st => st
  | v :: rest, st =>
    if st.m1 && st.m2 then st
    else
      let param := if v.position = 0 then p1 else p2
      let hit := value_metadata_matches cfg v param
      scan_values cfg p1 p2 rest
        { had1 := if v.position = 0 then true else st.had1
          had2 := if v.position = 0 then st.had2 else true
          m1 := if v.position = 0 then (st.m1 || hit) else st.m1
          m2 := if v.position = 0 then st.m2 else (st.m2 || hit) }

/-- The per-set acceptance test of `validate_custom_params` (behavior.c lines
128-131): run the descriptor scan from all-false state, then require each
position to be matched or to have no metadata with a zero parameter. -/
def set_matches (cfg : Config) (set : List value_metadata) (p1 p2 : Nat) : Bool :=
  let st := scan_values cfg p1 p2 set ⟨false, false, false, false⟩
  (st.m1 || (!st.had1 && decide (p1 = 0))) && (st.m2 || (!st.had2 && decide (p2 = 0)))

/-- The outer set loop of `validate_custom_params` (behavior.c lines 96-134):
`0` at the first matching set, `-EINVAL` after exhausting all sets. -/
def match_sets (cfg : Config) (p1 p2 : Nat) : List (List value_metadata) → Int
  | [] => -EINVAL
  | s :: rest => if set_matches cfg s p1 p2 then 0 else match_sets cfg p1 p2 rest

/-- Embedding of `validate_custom_params` (behavior.c lines 90-135): `-ENODEV`
when the custom set list pointer is NULL, otherwise the set loop. -/
def validate_custom_params (cfg : Config) (custom : Option (List (List value_metadata)))
    (param1 param2 : Nat) : Int :=
  match custom with
  | none => -ENODEV
  | some sets => match_sets cfg param1 param2 sets

/-- Modelled from the spec: the `STANDARD` member of the
`behavior_parameter_metadata` type enum (`drivers/behavior.h`). -/
def BEHAVIOR_PARAMETER_METADATA_STANDARD : Nat := 0

/-- Modelled from the spec: the `CUSTOM` member of the metadata type enum. -/
def BEHAVIOR_PARAMETER_METADATA_CUSTOM : Nat := 1

/-- Modelled from the spec: `struct behavior_parameter_metadata`
(`drivers/behavior.h`, not in the provided sources) — a `type` discriminant
(kept as `Nat`: the `switch` over it in `zmk_behavior_validate_binding` has a
`default` arm) with a standard payload (a domain tag per position) and a
custom payload (a possibly-NULL pointer to the alternative set list). -/
structure behavior_parameter_metadata where
  type : Nat
  standard_param1 : Nat
  standard_param2 : Nat
  custom : Option (List (List value_metadata))
deriving DecidableEq, Repr

/-- A `struct zmk_behavior_binding`: a possibly-NULL pointer to the behavior
name and the two 32-bit parameters. -/
structure zmk_behavior_binding where
  behavior_dev : Option Nat
  param1 : Nat
  param2 : Nat
deriving DecidableEq, Repr

/-- Embedding of `zmk_behavior_validate_binding` (behavior.c lines 139-171)
with `CONFIG_ZMK_BEHAVIOR_METADATA` enabled.  The external call
`behavior_get_parameter_domains` is a parameter `get_meta` returning the C
`int` result together with the metadata it fills in; a negative result is
propagated unchanged. -/
def zmk_behavior_validate_binding (cfg : Config) (mem : Nat → String) (table : List device)
    (get_meta : device → Int × behavior_parameter_metadata)
    (binding : zmk_behavior_binding) : Int :=
  match z_impl_behavior_get_binding mem table binding.behavior_dev with
  | none => -ENODEV
  | some behavior =>
    let fetched := get_meta behavior
    if fetched.1 < 0 then fetched.1
    else
      let metadata := fetched.2
      if metadata.type = BEHAVIOR_PARAMETER_METADATA_STANDARD then
        let ret := validate_standard_param cfg metadata.standard_param1 binding.param1
        if ret < 0 then ret
        else validate_standard_param cfg metadata.standard_param2 binding.param2
      else if metadata.type = BEHAVIOR_PARAMETER_METADATA_CUSTOM then
        validate_custom_params cfg metadata.custom binding.param1 binding.param2
      else
        -ENOTSUP

/-- Embedding of `check_behavior_names` (behavior.c lines 174-195): the nested
pair loop, the outer index ranging over the table and the inner one over the
entries after it; each `strcmp`-equal pair logs one diagnostic carrying the
current entry's name.  The function result pairs the returned `int` with the
emitted diagnostics. -/
def pair_diagnostics (mem : Nat → String) : List device → List String
  | [] => []
  | current :: rest =>
    (rest.filter (fun other => mem other.name = mem current.name)).map
      (fun _ => mem current.name) ++ pair_diagnostics mem rest

/-- `check_behavior_names` proper: emits the pair diagnostics and returns 0. -/
def check_behavior_names (mem : Nat → String) (table : List device) : Int × List String :=
  (0, pair_diagnostics mem table)

/-! Declarative (spec-side) characterization of the custom matcher, to be
proved equal to the imperative loop embedding. -/

/-- Spec wording for position 0: some descriptor tagged for position 0 matches
`param1`, or no descriptor is tagged for position 0 and `param1 = 0`. -/
def position0_satisfied (cfg : Config) (set : List value_metadata) (p1 : Nat) : Bool :=
  set.any (fun v => decide (v.position = 0) && value_metadata_matches cfg v p1) ||
    (set.all (fun v => !decide (v.position = 0)) && decide (p1 = 0))

/-- Spec wording for position 1: some descriptor tagged for position 1 (i.e.
not position 0) matches `param2`, or none is and `param2 = 0`. -/
def position1_satisfied (cfg : Config) (set : List value_metadata) (p2 : Nat) : Bool :=
  set.any (fun v => !decide (v.position = 0) && value_metadata_matches cfg v p2) ||
    (set.all (fun v => decide (v.position = 0)) && decide (p2 = 0))

/-- The satisfaction test computed from the loop state after scanning `l` from
state `st` equals the declarative per-position conditions (relativized to the
incoming state).  The early exit when both positions already matched is
harmless because the final test is then already true. -/
theorem scan_values_satisfaction (cfg : Config) (p1 p2 : Nat) :
    ∀ (l : List value_metadata) (st : scan_state),
      (((scan_values cfg p1 p2 l st).m1 ||
          (!(scan_values cfg p1 p2 l st).had1 && decide (p1 = 0))) &&
        ((scan_values cfg p1 p2 l st).m2 ||
          (!(scan_values cfg p1 p2 l st).had2 && decide (p2 = 0)))) =
      ((st.m1 || l.any (fun v => decide (v.position = 0) && value_metadata_matches cfg v p1) ||
          (!st.had1 && l.all (fun v => !decide (v.position = 0)) && decide (p1 = 0))) &&
        (st.m2 || l.any (fun v => !decide (v.position = 0) && value_metadata_matches cfg v p2) ||
          (!st.had2 && l.all (fun v => decide (v.position = 0)) && decide (p2 = 0)))) := by
  intro l
  induction l with
  | nil =>
    intro st
    simp [scan_values]
  | cons v rest ih =>
    intro st
    rw [scan_values]
    by_cases hstop : (st.m1 && st.m2) = true
    · rw [if_pos hstop]
      have h1 : st.m1 = true := (Bool.and_eq_true _ _).mp hstop |>.1
      have h2 : st.m2 = true := (Bool.and_eq_true _ _).mp hstop |>.2
      simp [h1, h2]
    · rw [if_neg hstop]
      rw [ih]
      by_cases hp : v.position = 0
      · simp only [hp, if_pos, List.any_cons, List.all_cons, decide_True, Bool.true_and,
          Bool.not_true, Bool.false_and, Bool.and_false, Bool.false_or, Bool.or_false, if_true]
        cases st.m1 <;> cases st.m2 <;>
          cases value_metadata_matches cfg v p1 <;>
          simp [Bool.or_assoc, Bool.or_comm, Bool.or_left_comm]
      · simp only [hp, List.any_cons, List.all_cons, decide_False, Bool.false_and,
          Bool.not_false, Bool.true_and, Bool.false_or, Bool.or_false, if_false, if_neg hp]
        cases st.m1 <;> cases st.m2 <;>
          cases value_metadata_matches cfg v p2 <;>
          simp [Bool.or_assoc, Bool.or_comm, Bool.or_left_comm]

/-- The imperative per-set test agrees with the declarative one. -/
theorem set_matches_eq_decl (cfg : Config) (set : List value_metadata) (p1 p2 : Nat) :
    set_matches cfg set p1 p2 =
      (position0_satisfied cfg set p1 && position1_satisfied cfg set p2) := by
  have h := scan_values_satisfaction cfg p1 p2 set ⟨false, false, false, false⟩
  simpa [set_matches, position0_satisfied, position1_satisfied] using h

/-- The outer set loop returns 0 iff some set matches, `-EINVAL` otherwise. -/
theorem match_sets_eq_any (cfg : Config) (p1 p2 : Nat) (sets : List (List value_metadata)) :
    match_sets cfg p1 p2 sets =
      if sets.any (fun s => set_matches cfg s p1 p2) then 0 else -EINVAL := by
  induction sets with
  | nil => simp [match_sets]
  | cons s rest ih =>
    rw [match_sets]
    by_cases hs : set_matches cfg s p1 p2 = true
    · simp [hs]
    · simp [hs, ih]

/-- C1: in the Custom Schema Matcher, a position of a set is satisfied iff
some descriptor tagged for that position matches the corresponding parameter,
or no descriptor in the set is tagged for that position and the parameter is
0; a set matches iff both positions are satisfied; `validate_custom_params`
returns 0 iff some set matches and `-EINVAL` otherwise; and the set whose only
descriptor is a position-0 Exact(5) matches binding (5, 0) but not (5, 1). -/
theorem C1_custom_schema_matcher (cfg : Config) (sets : List (List value_metadata))
    (set : List value_metadata) (p1 p2 : Nat) :
    (set_matches cfg set p1 p2
        = (position0_satisfied cfg set p1 && position1_satisfied cfg set p2)) ∧
    (validate_custom_params cfg (some sets) p1 p2
        = if sets.any (fun s => position0_satisfied cfg s p1 && position1_satisfied cfg s p2)
          then 0 else -EINVAL) ∧
    set_matches cfg [⟨0, BEHAVIOR_PARAMETER_VALUE_METADATA_TYPE_VALUE, 0, 5, 0, 0⟩] 5 0
      = true ∧
    set_matches cfg [⟨0, BEHAVIOR_PARAMETER_VALUE_METADATA_TYPE_VALUE, 0, 5, 0, 0⟩] 5 1
      = false := by
  refine ⟨set_matches_eq_decl cfg set p1 p2, ?_, ?_, ?_⟩
  · show match_sets cfg p1 p2 sets = _
    rw [match_sets_eq_any]
    simp only [set_matches_eq_decl]
  · simp [set_matches, scan_values, value_metadata_matches,
      BEHAVIOR_PARAMETER_VALUE_METADATA_TYPE_VALUE,
      BEHAVIOR_PARAMETER_VALUE_METADATA_TYPE_STANDARD]
  · simp [set_matches, scan_values, value_metadata_matches,
      BEHAVIOR_PARAMETER_VALUE_METADATA_TYPE_VALUE,
      BEHAVIOR_PARAMETER_VALUE_METADATA_TYPE_STANDARD]

/-- C6: `validate_custom_params` fails with `-ENODEV` (missing metadata) when
the set list is NULL; that code is distinct from `-EINVAL`, and a present set
list can only produce 0 or `-EINVAL`, never `-ENODEV`. -/
theorem C6_missing_metadata_error (cfg : Config) (p1 p2 : Nat) :
    validate_custom_params cfg none p1 p2 = -ENODEV ∧
    (-ENODEV : Int) ≠ -EINVAL ∧
    ∀ sets, validate_custom_params cfg (some sets) p1 p2 = 0 ∨
      validate_custom_params cfg (some sets) p1 p2 = -EINVAL := by
  refine ⟨rfl, by decide, ?_⟩
  intro sets
  show match_sets cfg p1 p2 sets = 0 ∨ match_sets cfg p1 p2 sets = -EINVAL
  rw [match_sets_eq_any]
  by_cases h : sets.any (fun s => set_matches cfg s p1 p2) = true
  · exact Or.inl (by simp [h])
  · exact Or.inr (by simp [h])

/-- C10: a present but empty custom set list rejects every parameter pair,
including (0, 0), with `-EINVAL`, and is not reported as missing metadata. -/
theorem C10_empty_set_list (cfg : Config) (p1 p2 : Nat) :
    validate_custom_params cfg (some []) p1 p2 = -EINVAL ∧
    validate_custom_params cfg (some []) 0 0 = -EINVAL ∧
    validate_custom_params cfg (some []) p1 p2 ≠ -ENODEV := by
  refine ⟨rfl, rfl, ?_⟩
  show match_sets cfg p1 p2 [] ≠ -ENODEV
  rw [match_sets]
  decide

/-- C3: for every 32-bit value split into a 16-bit usage page (high bits) and
16-bit usage id (low bits), the HID-usage domain check succeeds iff the page
is Keyboard/Keypad with `1 ≤ id ≤ nkro_max_usage`, or the page is Consumer
with `id ≤ 0xFF` (basic consumer usages) or `id ≤ 0xFFF` (otherwise); every
other page is rejected with `-EINVAL` regardless of id. -/
theorem C3_validate_hid_usage (cfg : Config) (val : Nat) (hval : val < 2 ^ 32) :
    (validate_standard_param cfg BEHAVIOR_PARAMETER_STANDARD_DOMAIN_HID_USAGE val = 0 ↔
      (ZMK_HID_USAGE_PAGE val = HID_USAGE_KEY ∧ 1 ≤ ZMK_HID_USAGE_ID val ∧
        ZMK_HID_USAGE_ID val ≤ cfg.nkro_max_usage) ∨
      (ZMK_HID_USAGE_PAGE val = HID_USAGE_CONSUMER ∧
        ZMK_HID_USAGE_ID val ≤ (if cfg.consumer_basic then 0xFF else 0xFFF))) ∧
    (ZMK_HID_USAGE_PAGE val ≠ HID_USAGE_KEY → ZMK_HID_USAGE_PAGE val ≠ HID_USAGE_CONSUMER →
      validate_standard_param cfg BEHAVIOR_PARAMETER_STANDARD_DOMAIN_HID_USAGE val
        = -EINVAL) := by
  have hvs : validate_standard_param cfg BEHAVIOR_PARAMETER_STANDARD_DOMAIN_HID_USAGE val
      = validate_hid_usage cfg (ZMK_HID_USAGE_PAGE val) (ZMK_HID_USAGE_ID val) := by
    simp [validate_standard_param, BEHAVIOR_PARAMETER_STANDARD_DOMAIN_NULL,
      BEHAVIOR_PARAMETER_STANDARD_DOMAIN_HID_USAGE]
  rw [hvs, validate_hid_usage]
  simp only [HID_USAGE_KEY, HID_USAGE_CONSUMER, EINVAL]
  cases hb : cfg.consumer_basic <;>
    simp only [hb, Bool.false_eq_true, if_true, if_false] <;>
    split_ifs <;>
    simp only [false_iff, true_iff, not_or, ne_eq, implies_true, and_true] <;>
    omega

/-- Witness for C3 at the 32-bit value 0x00070005: Keyboard/Keypad page, usage
id 5, valid under the example configuration. -/
theorem C3_validate_hid_usage_witness :
    (0x70005 : Nat) < 2 ^ 32 ∧
    ((validate_standard_param exampleConfig BEHAVIOR_PARAMETER_STANDARD_DOMAIN_HID_USAGE 0x70005
        = 0 ↔
      (ZMK_HID_USAGE_PAGE 0x70005 = HID_USAGE_KEY ∧ 1 ≤ ZMK_HID_USAGE_ID 0x70005 ∧
        ZMK_HID_USAGE_ID 0x70005 ≤ exampleConfig.nkro_max_usage) ∨
      (ZMK_HID_USAGE_PAGE 0x70005 = HID_USAGE_CONSUMER ∧
        ZMK_HID_USAGE_ID 0x70005 ≤ (if exampleConfig.consumer_basic then 0xFF else 0xFFF))) ∧
     (ZMK_HID_USAGE_PAGE 0x70005 ≠ HID_USAGE_KEY →
      ZMK_HID_USAGE_PAGE 0x70005 ≠ HID_USAGE_CONSUMER →
      validate_standard_param exampleConfig BEHAVIOR_PARAMETER_STANDARD_DOMAIN_HID_USAGE 0x70005
        = -EINVAL)) :=
  ⟨by decide, C3_validate_hid_usage exampleConfig 0x70005 (by decide)⟩

/-- C4: with Standard metadata, if param1's domain check fails the validator
returns that failure — a value not depending on `param2` or `param2_domain`,
which are universally quantified here — and if it succeeds the validator
returns exactly the result of checking param2 against `param2_domain`. -/
theorem C4_standard_short_circuit (cfg : Config) (mem : Nat → String) (table : List device)
    (get_meta : device → Int × behavior_parameter_metadata) (binding : zmk_behavior_binding)
    (dev : device) (r : Int) (meta : behavior_parameter_metadata)
    (hres : z_impl_behavior_get_binding mem table binding.behavior_dev = some dev)
    (hmeta : get_meta dev = (r, meta))
    (hr : ¬ r < 0)
    (htype : meta.type = BEHAVIOR_PARAMETER_METADATA_STANDARD) :
    (validate_standard_param cfg meta.standard_param1 binding.param1 < 0 →
      zmk_behavior_validate_binding cfg mem table get_meta binding
        = validate_standard_param cfg meta.standard_param1 binding.param1) ∧
    (¬ validate_standard_param cfg meta.standard_param1 binding.param1 < 0 →
      zmk_behavior_validate_binding cfg mem table get_meta binding
        = validate_standard_param cfg meta.standard_param2 binding.param2) := by
  constructor <;> intro h1 <;>
    simp [zmk_behavior_validate_binding, hres, hmeta, hr, htype, h1]

/-- Witness for C4: one ready device named "b", Standard metadata with both
domains Null, binding (1, 0); param1 = 1 fails the Null domain, and the
validator returns that `-EINVAL`. -/
theorem C4_standard_short_circuit_witness :
    z_impl_behavior_get_binding (fun p => if p = 1 then "b" else "")
        [⟨1, true⟩] (some 1) = some ⟨1, true⟩ ∧
    ((validate_standard_param exampleConfig 0 1 < 0 →
      zmk_behavior_validate_binding exampleConfig (fun p => if p = 1 then "b" else "")
          [⟨1, true⟩] (fun _ => (0, ⟨0, 0, 0, none⟩)) ⟨some 1, 1, 0⟩
        = validate_standard_param exampleConfig 0 1) ∧
     (¬ validate_standard_param exampleConfig 0 1 < 0 →
      zmk_behavior_validate_binding exampleConfig (fun p => if p = 1 then "b" else "")
          [⟨1, true⟩] (fun _ => (0, ⟨0, 0, 0, none⟩)) ⟨some 1, 1, 0⟩
        = validate_standard_param exampleConfig 0 0)) :=
  ⟨by decide,
   C4_standard_short_circuit exampleConfig (fun p => if p = 1 then "b" else "")
     [⟨1, true⟩] (fun _ => (0, ⟨0, 0, 0, none⟩)) ⟨some 1, 1, 0⟩ ⟨1, true⟩ 0 ⟨0, 0, 0, none⟩
     (by decide) rfl (by decide) rfl⟩

/-- C5: when the binding's name resolves to no ready registered entry, the
validator fails with `-ENODEV`; the metadata provider `get_meta` is
universally quantified, so the result is independent of anything it would
return. -/
theorem C5_unknown_behavior (cfg : Config) (mem : Nat → String) (table : List device)
    (get_meta : device → Int × behavior_parameter_metadata) (binding : zmk_behavior_binding)
    (h : z_impl_behavior_get_binding mem table binding.behavior_dev = none) :
    zmk_behavior_validate_binding cfg mem table get_meta binding = -ENODEV := by
  simp [zmk_behavior_validate_binding, h]

/-- Witness for C5: an empty registry and a NULL behavior name. -/
theorem C5_unknown_behavior_witness :
    z_impl_behavior_get_binding (fun _ => "") [] none = none ∧
    zmk_behavior_validate_binding exampleConfig (fun _ => "") []
        (fun _ => (0, ⟨0, 0, 0, none⟩)) ⟨none, 0, 0⟩ = -ENODEV :=
  ⟨rfl,
   C5_unknown_behavior exampleConfig (fun _ => "") [] (fun _ => (0, ⟨0, 0, 0, none⟩))
     ⟨none, 0, 0⟩ rfl⟩

/-- C8: the validator returns the same `-ENODEV` both when the binding's name
does not resolve and when the resolved handler declares Custom metadata with a
NULL set list, so the two failure kinds are indistinguishable from the return
value. -/
theorem C8_enodev_ambiguity (cfg : Config) (mem : Nat → String) (table : List device)
    (get_meta : device → Int × behavior_parameter_metadata)
    (b1 b2 : zmk_behavior_binding) (dev : device) (r : Int)
    (meta : behavior_parameter_metadata)
    (h1 : z_impl_behavior_get_binding mem table b1.behavior_dev = none)
    (h2 : z_impl_behavior_get_binding mem table b2.behavior_dev = some dev)
    (hmeta : get_meta dev = (r, meta)) (hr : ¬ r < 0)
    (htype : meta.type = BEHAVIOR_PARAMETER_METADATA_CUSTOM)
    (hcustom : meta.custom = none) :
    zmk_behavior_validate_binding cfg mem table get_meta b1 = -ENODEV ∧
    zmk_behavior_validate_binding cfg mem table get_meta b2 = -ENODEV ∧
    zmk_behavior_validate_binding cfg mem table get_meta b1
      = zmk_behavior_validate_binding cfg mem table get_meta b2 := by
  have ha : zmk_behavior_validate_binding cfg mem table get_meta b1 = -ENODEV := by
    simp [zmk_behavior_validate_binding, h1]
  have hb : zmk_behavior_validate_binding cfg mem table get_meta b2 = -ENODEV := by
    simp [zmk_behavior_validate_binding, h2, hmeta, hr, htype, hcustom,
      BEHAVIOR_PARAMETER_METADATA_CUSTOM, BEHAVIOR_PARAMETER_METADATA_STANDARD,
      validate_custom_params]
  exact ⟨ha, hb, ha.trans hb.symm⟩

/-- Witness for C8: a NULL-named binding versus a binding resolving to a ready
device whose metadata is Custom with a NULL set list. -/
theorem C8_enodev_ambiguity_witness :
    z_impl_behavior_get_binding (fun p => if p = 1 then "b" else "") [⟨1, true⟩] none
      = none ∧
    zmk_behavior_validate_binding exampleConfig (fun p => if p = 1 then "b" else "")
        [⟨1, true⟩] (fun _ => (0, ⟨1, 0, 0, none⟩)) ⟨none, 0, 0⟩ = -ENODEV ∧
    zmk_behavior_validate_binding exampleConfig (fun p => if p = 1 then "b" else "")
        [⟨1, true⟩] (fun _ => (0, ⟨1, 0, 0, none⟩)) ⟨some 1, 0, 0⟩ = -ENODEV ∧
    zmk_behavior_validate_binding exampleConfig (fun p => if p = 1 then "b" else "")
        [⟨1, true⟩] (fun _ => (0, ⟨1, 0, 0, none⟩)) ⟨none, 0, 0⟩
      = zmk_behavior_validate_binding exampleConfig (fun p => if p = 1 then "b" else "")
          [⟨1, true⟩] (fun _ => (0, ⟨1, 0, 0, none⟩)) ⟨some 1, 0, 0⟩ :=
  ⟨rfl,
   C8_enodev_ambiguity exampleConfig (fun p => if p = 1 then "b" else "") [⟨1, true⟩]
     (fun _ => (0, ⟨1, 0, 0, none⟩)) ⟨none, 0, 0⟩ ⟨some 1, 0, 0⟩ ⟨1, true⟩ 0 ⟨1, 0, 0, none⟩
     rfl (by decide) rfl (by decide) rfl rfl⟩

/-- C9: a standard-domain tag outside the four defined variants is accepted for
every value (the C switch has no default and falls through to success), while
a metadata shape outside Standard/Custom makes the validator fail with
`-ENOTSUP`, a nonzero code. -/
theorem C9_unknown_tags (cfg : Config) (d v : Nat)
    (hd0 : d ≠ BEHAVIOR_PARAMETER_STANDARD_DOMAIN_NULL)
    (hd1 : d ≠ BEHAVIOR_PARAMETER_STANDARD_DOMAIN_HID_USAGE)
    (hd2 : d ≠ BEHAVIOR_PARAMETER_STANDARD_DOMAIN_LAYER_INDEX)
    (hd3 : d ≠ BEHAVIOR_PARAMETER_STANDARD_DOMAIN_HSV) :
    validate_standard_param cfg d v = 0 ∧
    (∀ (mem : Nat → String) (table : List device)
       (get_meta : device → Int × behavior_parameter_metadata)
       (binding : zmk_behavior_binding) (dev : device) (r : Int)
       (meta : behavior_parameter_metadata),
       z_impl_behavior_get_binding mem table binding.behavior_dev = some dev →
       get_meta dev = (r, meta) → ¬ r < 0 →
       meta.type ≠ BEHAVIOR_PARAMETER_METADATA_STANDARD →
       meta.type ≠ BEHAVIOR_PARAMETER_METADATA_CUSTOM →
       zmk_behavior_validate_binding cfg mem table get_meta binding = -ENOTSUP) ∧
    (-ENOTSUP : Int) ≠ 0 := by
  refine ⟨by simp [validate_standard_param, hd0, hd1, hd2, hd3], ?_, by decide⟩
  intro mem table get_meta binding dev r meta hres hmeta hr ht1 ht2
  simp [zmk_behavior_validate_binding, hres, hmeta, hr, ht1, ht2]

/-- Witness for C9 at domain tag 7, value 3, and a metadata shape tag 5. -/
theorem C9_unknown_tags_witness :
    validate_standard_param exampleConfig 7 3 = 0 ∧
    (∀ (mem : Nat → String) (table : List device)
       (get_meta : device → Int × behavior_parameter_metadata)
       (binding : zmk_behavior_binding) (dev : device) (r : Int)
       (meta : behavior_parameter_metadata),
       z_impl_behavior_get_binding mem table binding.behavior_dev = some dev →
       get_meta dev = (r, meta) → ¬ r < 0 →
       meta.type ≠ BEHAVIOR_PARAMETER_METADATA_STANDARD →
       meta.type ≠ BEHAVIOR_PARAMETER_METADATA_CUSTOM →
       zmk_behavior_validate_binding exampleConfig mem table get_meta binding = -ENOTSUP) ∧
    (-ENOTSUP : Int) ≠ 0 :=
  C9_unknown_tags exampleConfig 7 3 (by decide) (by decide) (by decide) (by decide)

/-- Spec wording for an offending pair of the Uniqueness Auditor: a two-element
subsequence of the registry whose two entries have byte-equal names. -/
def pair_collides (mem : Nat → String) : List device → Bool
  | [a, b] => decide (mem b.name = mem a.name)
  | _ => false

/-- Counting helper: collisions of `a` against the one-element subsequences of
`l` are exactly the entries of `l` whose name equals `a`'s. -/
theorem countP_sublistsLen_one (mem : Nat → String) (a : device) :
    ∀ l : List device,
      (l.sublistsLen 1).countP (fun s => pair_collides mem (a :: s)) =
        l.countP (fun o => decide (mem o.name = mem a.name)) := by
  intro l
  induction l with
  | nil => rfl
  | cons b l ih =>
    rw [List.sublistsLen_succ_cons, List.countP_append, ih, List.sublistsLen_zero]
    simp [pair_collides, List.countP_cons]

/-- The auditor's diagnostics are in bijection with the offending pairs: one
log line per two-element subsequence with byte-equal names. -/
theorem pair_diagnostics_length (mem : Nat → String) : ∀ table : List device,
    (pair_diagnostics mem table).length =
      ((table.sublistsLen 2).filter (pair_collides mem)).length := by
  intro table
  induction table with
  | nil => rfl
  | cons c rest ih =>
    rw [pair_diagnostics, List.sublistsLen_succ_cons, List.filter_append, List.length_append,
      List.length_append, List.length_map, ih]
    simp only [List.filter_map, List.length_map, ← List.countP_eq_length_filter,
      Function.comp_def]
    rw [countP_sublistsLen_one]
    simp only [show (1 + 1) = 2 from rfl]
    omega

/-- The auditor is silent exactly when all registered names are pairwise
distinct. -/
theorem pair_diagnostics_eq_nil_iff (mem : Nat → String) : ∀ table : List device,
    pair_diagnostics mem table = [] ↔
      List.Pairwise (fun a b => mem a.name ≠ mem b.name) table := by
  intro table
  induction table with
  | nil => simp [pair_diagnostics]
  | cons c rest ih =>
    rw [pair_diagnostics]
    simp [List.filter_eq_nil_iff, ih, List.pairwise_cons, ne_comm]

/-- C7: for every registry table, duplicate names included, the Uniqueness
Auditor returns success (0) to its caller; it emits exactly one diagnostic per
offending pair (two-element subsequence with byte-equal names) and none when
all names are distinct, and — being a pure function of the table — it leaves
the registry unchanged. -/
theorem C7_uniqueness_auditor (mem : Nat → String) (table : List device) :
    (check_behavior_names mem table).1 = 0 ∧
    ((check_behavior_names mem table).2 = []
      ↔ List.Pairwise (fun a b => mem a.name ≠ mem b.name) table) ∧
    (check_behavior_names mem table).2.length
      = ((table.sublistsLen 2).filter (pair_collides mem)).length :=
  ⟨rfl, pair_diagnostics_eq_nil_iff mem table, pair_diagnostics_length mem table⟩

/-- An identity-pass hit is also a strcmp-pass hit, and when ready entries
have pairwise distinct name bytes the strcmp pass returns the very entry the
identity pass found. -/
theorem find_ready_identity_to_strcmp (mem : Nat → String) (p : Nat) :
    ∀ (table : List device) (d : device),
      List.Pairwise (fun a b => a.ready = true → b.ready = true → mem a.name ≠ mem b.name)
        table →
      find_ready_identity table p = some d →
      find_ready_strcmp mem table p = some d := by
  intro table
  induction table with
  | nil => intro d _ h; simp [find_ready_identity] at h
  | cons e rest ih =>
    intro d hpw hfind
    have hpw' := List.pairwise_cons.mp hpw
    rw [find_ready_identity, List.find?_cons] at hfind
    by_cases he : (e.ready && decide (e.name = p)) = true
    · simp only [he] at hfind
      have hde : e = d := by injection hfind
      have heready : e.ready = true := ((Bool.and_eq_true _ _).mp he).1
      have hename : e.name = p := of_decide_eq_true ((Bool.and_eq_true _ _).mp he).2
      have hs : (e.ready && decide (mem e.name = mem p)) = true := by
        simp [heready, hename]
      rw [find_ready_strcmp, List.find?_cons]
      simp only [hs]
      rw [hde]
    · rw [Bool.not_eq_true] at he
      simp only [he] at hfind
      have hfind' : find_ready_identity rest p = some d := hfind
      have hdmem : d ∈ rest := List.mem_of_find?_eq_some hfind'
      have hdpred := List.find?_some hfind'
      have hdready : d.ready = true := ((Bool.and_eq_true _ _).mp hdpred).1
      have hdname : d.name = p := of_decide_eq_true ((Bool.and_eq_true _ _).mp hdpred).2
      by_cases hs : (e.ready && decide (mem e.name = mem p)) = true
      · exfalso
        have heready : e.ready = true := ((Bool.and_eq_true _ _).mp hs).1
        have hebytes : mem e.name = mem p :=
          of_decide_eq_true ((Bool.and_eq_true _ _).mp hs).2
        exact (hpw'.1 d hdmem heready hdready) (by rw [hebytes, hdname])
      · rw [Bool.not_eq_true] at hs
        rw [find_ready_strcmp, List.find?_cons]
        simp only [hs]
        exact ih d hpw'.2 hfind'

/-- Counterexample to C2 as stated: two ready devices with byte-equal names
"x" at different addresses.  Looking up the second device's name pointer, the
two-pass lookup returns the second device (identity hit) while the single
byte-wise pass returns the first, so collapsing the passes is observable. -/
theorem C2_two_pass_counterexample :
    z_impl_behavior_get_binding (fun p => if p = 10 ∨ p = 11 then "x" else "")
        [⟨10, true⟩, ⟨11, true⟩] (some 11) = some ⟨11, true⟩ ∧
    behavior_get_binding_single (fun p => if p = 10 ∨ p = 11 then "x" else "")
        [⟨10, true⟩, ⟨11, true⟩] (some 11) = some ⟨10, true⟩ ∧
    z_impl_behavior_get_binding (fun p => if p = 10 ∨ p = 11 then "x" else "")
        [⟨10, true⟩, ⟨11, true⟩] (some 11)
      ≠ behavior_get_binding_single (fun p => if p = 10 ∨ p = 11 then "x" else "")
          [⟨10, true⟩, ⟨11, true⟩] (some 11) :=
  ⟨by decide, by decide, by decide⟩

/-- C2 (amended): the fast identity pass's per-entry matches are a subset of
the fallback's byte-wise matches, and provided no two ready entries have
byte-equal names, the two-pass lookup returns exactly the result of a single
byte-wise pass over the ready entries. -/
theorem C2_single_pass_equiv (mem : Nat → String) (table : List device) (name : Option Nat)
    (huniq : List.Pairwise (fun a b => a.ready = true → b.ready = true →
      mem a.name ≠ mem b.name) table) :
    z_impl_behavior_get_binding mem table name
      = behavior_get_binding_single mem table name ∧
    (∀ (q : Nat) (d : device), (d.ready && decide (d.name = q)) = true →
      (d.ready && decide (mem d.name = mem q)) = true) := by
  constructor
  · cases name with
    | none => rfl
    | some p =>
      rw [z_impl_behavior_get_binding, behavior_get_binding_single]
      by_cases hemp : mem p = ""
      · simp [hemp]
      · rw [if_neg hemp, if_neg hemp]
        cases hid : find_ready_identity table p with
        | none => rfl
        | some d => exact (find_ready_identity_to_strcmp mem p table d huniq hid).symm
  · intro q d h
    have hready : d.ready = true := ((Bool.and_eq_true _ _).mp h).1
    have hname : d.name = q := of_decide_eq_true ((Bool.and_eq_true _ _).mp h).2
    simp [hready, hname]

/-- Witness for the amended C2: two ready devices with distinct names "a" and
"b"; both lookups agree on the query for "b". -/
theorem C2_single_pass_equiv_witness :
    List.Pairwise (fun a b => a.ready = true → b.ready = true →
        (fun p => if p = 10 then "a" else if p = 11 then "b" else "") a.name
          ≠ (fun p => if p = 10 then "a" else if p = 11 then "b" else "") b.name)
      [(⟨10, true⟩ : device), ⟨11, true⟩] ∧
    (z_impl_behavior_get_binding (fun p => if p = 10 then "a" else if p = 11 then "b" else "")
        [⟨10, true⟩, ⟨11, true⟩] (some 11)
      = behavior_get_binding_single (fun p => if p = 10 then "a" else if p = 11 then "b" else "")
          [⟨10, true⟩, ⟨11, true⟩] (some 11) ∧
     ∀ (q : Nat) (d : device), (d.ready && decide (d.name = q)) = true →
      (d.ready && decide ((fun p => if p = 10 then "a" else if p = 11 then "b" else "") d.name
          = (fun p => if p = 10 then "a" else if p = 11 then "b" else "") q)) = true) :=
  ⟨by decide,
   C2_single_pass_equiv (fun p => if p = 10 then "a" else if p = 11 then "b" else "")
     [⟨10, true⟩, ⟨11, true⟩] (some 11) (by decide)⟩

end ZMKBehavior
